import Mathlib

set_option maxRecDepth 8000

/-!
Verification of the Savings Opportunity Detection & Cooling-Off Engine
(`backend/savingsAgent.js`, with the withdrawal-request table from
`backend/challengesManager.js` and the withdrawal HTTP route from
`backend/server.js`).

Modelling conventions:
* JavaScript numbers are embedded as exact rationals (`ℚ`).  Amounts and
  timestamps (milliseconds since the epoch, as produced by `Date`
  arithmetic) are rationals.
* A transaction field whose numeric coercion is `NaN` (a non-numeric
  amount) is embedded as `none`; every JS comparison `NaN < x`, `NaN > x`,
  `NaN >= x` is false, which the `js*` helpers reproduce.
* A date string that `new Date` cannot parse yields an invalid date whose
  time value is `NaN`; it is likewise embedded as `none`, and all date
  comparisons on it are false.
* `Array.prototype.sort((a, b) => a - b)` sorts numbers ascending; on a
  list of plain numbers every ascending sort produces the same list, so it
  is embedded as an insertion sort.
* `.toFixed(k)` is embedded as decimal rendering after rounding half away
  from zero; all concrete values evaluated in this file are exact at `k`
  decimals, where every rounding convention agrees.
-/

/-- JS `t.amount < 0` (false when the amount coerces to `NaN`). -/
def jsLtZero : Option ℚ → Bool
  | some q => decide (q < 0)
  | none => false

/-- JS `t.amount > 0` (false when the amount coerces to `NaN`). -/
def jsGtZero : Option ℚ → Bool
  | some q => decide (0 < q)
  | none => false

/-- JS `txnDate >= bound` (false when the date is invalid). -/
def jsDateGe : Option ℚ → ℚ → Bool
  | some d, bound => decide (bound ≤ d)
  | none, _ => false

/-- JS `txnDate < bound` (false when the date is invalid). -/
def jsDateLt : Option ℚ → ℚ → Bool
  | some d, bound => decide (d < bound)
  | none, _ => false

/-- JS truthiness of an optional string: `undefined`/`null` and the empty
string are falsy. -/
def jsStrTruthy : Option String → Bool
  | some s => decide (s ≠ "")
  | none => false

/-- JS `a || b || "Unknown"` on two optional strings. -/
def jsSourceLabel (name merchant : Option String) : String :=
  if jsStrTruthy name then name.getD ""
  else if jsStrTruthy merchant then merchant.getD ""
  else "Unknown"

/-- Mathematical floor of a rational; `Int.ediv` is floor division for the
positive denominator of a `ℚ`. -/
def ratFloor (q : ℚ) : ℤ := Int.ediv q.num q.den

/-- `Math.ceil` on an exact rational (the embedding of JS number `x` being
exact, `Math.ceil x` is the mathematical ceiling). -/
def ratCeil (q : ℚ) : ℤ := -ratFloor (-q)

/-- Left-pad a digit string with zeros to width `k`. -/
def padZeros (s : String) (k : ℕ) : String :=
  String.mk (List.replicate (k - s.length) '0') ++ s

/-- `x.toFixed(k)`: render a rational with exactly `k` decimal digits,
rounding half away from zero.  (JS rounds the underlying binary double;
for values exact at `k` decimals, as everywhere this file evaluates it,
the two agree.) -/
def ratToFixed (q : ℚ) (k : ℕ) : String :=
  let scaled : ℤ :=
    if q < 0 then -ratFloor (-q * (10 : ℚ) ^ k + 1/2)
    else ratFloor (q * (10 : ℚ) ^ k + 1/2)
  let sign := if scaled < 0 then "-" else ""
  let n := scaled.natAbs
  let intPart := n / 10 ^ k
  let fracPart := n % 10 ^ k
  if k = 0 then sign ++ toString intPart
  else sign ++ toString intPart ++ "." ++ padZeros (toString fracPart) k

/-- Ascending insertion of a rational into a sorted list. -/
def insertAsc (x : ℚ) : List ℚ → List ℚ
  | [] => [x]
  | y :: ys => if x ≤ y then x :: y :: ys else y :: insertAsc x ys

/-- `incomeTransactions.sort((a, b) => a - b)`: ascending numeric sort. -/
def sortAsc (l : List ℚ) : List ℚ := l.foldr insertAsc []

/-- A raw transaction record as consumed by the detectors (Plaid sign
convention: negative amount = credit/income, positive = debit/spending). -/
structure Transaction where
  amount : Option ℚ
  date : Option ℚ
  name : Option String
  merchant_name : Option String
deriving DecidableEq, Repr

/-! ## Windfall detector (`detectWindfall`, savingsAgent.js lines 17–78) -/

/-- `transactions.filter(t => t.amount < 0).map(t => Math.abs(t.amount))`. -/
def incomes (txs : List Transaction) : List ℚ :=
  (txs.filter (fun t => jsLtZero t.amount)).map (fun t => |t.amount.getD 0|)

/-- `incomeTransactions.sort(...); incomeTransactions[Math.floor(length / 2)]`. -/
def windfallMedian (txs : List Transaction) : ℚ :=
  let inc := sortAsc (incomes txs)
  inc.getD (inc.length / 2) 0

/-- The filter of savingsAgent.js lines 40–45:
`t.amount < 0 && Math.abs(t.amount) > median * 1.5 && txnDate >= thirtyDaysAgo`
where `thirtyDaysAgo = now - 30 * 24 * 60 * 60 * 1000`. -/
def windfallQualifies (now median : ℚ) (t : Transaction) : Bool :=
  jsLtZero t.amount &&
    (match t.amount with
     | some a => decide (median * 1.5 < |a|)
     | none => false) &&
    jsDateGe t.date (now - 2592000000)

/-- The object produced at savingsAgent.js lines 46–51; note it has fields
`amount`, `date`, `name`, `merchant` and **no** `source` field. -/
structure MappedDeposit where
  amount : ℚ
  date : Option ℚ
  name : Option String
  merchant : Option String
deriving DecidableEq, Repr

/-- `recentLargeDeposits` (savingsAgent.js lines 39–51). -/
def recentLargeDeposits (now median : ℚ) (txs : List Transaction) : List MappedDeposit :=
  (txs.filter (windfallQualifies now median)).map
    (fun t => ⟨|t.amount.getD 0|, t.date, t.name, t.merchant_name⟩)

/-- Result of `detectWindfall`: either the `isWindfall:false` shape with its
reason, or the `isWindfall:true` shape with fields amount, medianIncome,
multiplier (a `toFixed(1)` string), source, date, suggestedSavings, reason. -/
inductive WindfallResult where
  | noWindfall (reason : String) : WindfallResult
  | windfall (amount : ℚ) (medianIncome : ℚ) (multiplier : String)
      (source : String) (date : Option ℚ) (suggestedSavings : ℚ)
      (reason : String) : WindfallResult
deriving DecidableEq, Repr

/-- The `isWindfall` field of the returned object. -/
def WindfallResult.isWindfall : WindfallResult → Bool
  | .noWindfall _ => false
  | .windfall _ _ _ _ _ _ _ => true

/-- `detectWindfall` (savingsAgent.js lines 17–78).  The windfall branch
builds `reason` from `windfall.source`; `windfall` is the mapped deposit
record, which has no `source` property, so the template literal
interpolates `undefined` and the string renders the literal text
"undefined". -/
def detectWindfall (now : ℚ) (txs : List Transaction) : WindfallResult :=
  if (incomes txs).length < 2 then .noWindfall "Not enough transaction history"
  else
    let median := windfallMedian txs
    match recentLargeDeposits now median txs with
    | [] => .noWindfall "No recent large deposits detected"
    | w :: _ =>
        .windfall w.amount median (ratToFixed (w.amount / median) 1)
          (jsSourceLabel w.name w.merchant) w.date (w.amount * 0.2)
          ("Detected undefined: $" ++ ratToFixed w.amount 2 ++ " (" ++
            ratToFixed (w.amount / median) 1 ++ "x your typical income)")

/-! ## Weekly sweep detector (`analyzeWeeklySweep`, savingsAgent.js lines 105–165) -/

/-- This week's debit transactions:
`t.amount > 0 && txnDate >= oneWeekAgo` with `oneWeekAgo = now - 7 days`. -/
def thisWeekTxs (now : ℚ) (txs : List Transaction) : List Transaction :=
  txs.filter (fun t => jsGtZero t.amount && jsDateGe t.date (now - 604800000))

/-- Sum of the `amount` fields of a list of transactions (`reduce`). -/
def sumAmounts (l : List Transaction) : ℚ :=
  (l.map (fun t => t.amount.getD 0)).sum

/-- `thisWeekSpending` (savingsAgent.js lines 112–117). -/
def thisWeekSpending (now : ℚ) (txs : List Transaction) : ℚ :=
  sumAmounts (thisWeekTxs now txs)

/-- `last4WeeksTransactions` (savingsAgent.js lines 120–124):
`t.amount > 0 && txnDate >= fiveWeeksAgo && txnDate < oneWeekAgo` with
`fiveWeeksAgo = now - 35 days`. -/
def last4WeeksTxs (now : ℚ) (txs : List Transaction) : List Transaction :=
  txs.filter (fun t =>
    jsGtZero t.amount && jsDateGe t.date (now - 3024000000) &&
      jsDateLt t.date (now - 604800000))

/-- `avgWeeklySpending = last4WeeksSpending / 4` (savingsAgent.js line 134). -/
def avgWeeklySpending (now : ℚ) (txs : List Transaction) : ℚ :=
  sumAmounts (last4WeeksTxs now txs) / 4

/-- `unspentAmount = avgWeeklySpending - thisWeekSpending` (line 137). -/
def unspentAmount (now : ℚ) (txs : List Transaction) : ℚ :=
  avgWeeklySpending now txs - thisWeekSpending now txs

/-- Result of `analyzeWeeklySweep`: the `hasSweepOpportunity:false` shape
with its reason, or the opportunity shape with thisWeekSpending,
avgWeeklySpending, unspentAmount, suggestedSavings, reason. -/
inductive SweepResult where
  | noOpportunity (reason : String) : SweepResult
  | opportunity (thisWeekSpending avgWeeklySpending unspentAmount
      suggestedSavings : ℚ) (reason : String) : SweepResult
deriving DecidableEq, Repr

/-- The `hasSweepOpportunity` field of the returned object. -/
def SweepResult.hasOpportunity : SweepResult → Bool
  | .noOpportunity _ => false
  | .opportunity _ _ _ _ _ => true

/-- `analyzeWeeklySweep` (savingsAgent.js lines 105–165). -/
def analyzeWeeklySweep (now : ℚ) (txs : List Transaction) : SweepResult :=
  if last4WeeksTxs now txs = [] then .noOpportunity "Not enough historical data"
  else if 5 < unspentAmount now txs then
    .opportunity (thisWeekSpending now txs) (avgWeeklySpending now txs)
      (unspentAmount now txs) (unspentAmount now txs * 0.5)
      ("You spent $" ++ ratToFixed (unspentAmount now txs) 2 ++
        " less than usual this week!")
  else
    .noOpportunity
      (if avgWeeklySpending now txs < thisWeekSpending now txs then
        "You spent more than usual this week"
      else "Unspent amount is too small to sweep")

/-! ## Soft-lock withdrawal engine (savingsAgent.js lines 186–312,
server.js lines 784–818, table schema in challengesManager.js lines 526–538) -/

/-- A row of the `increase_accounts` table, with the columns the soft-lock
code reads (`increase_account_id`, `account_type`, `name`, `balance`,
`goal_amount`, `purpose`). -/
structure Account where
  increase_account_id : String
  account_type : String
  name : Option String
  balance : ℚ
  goal_amount : Option ℚ
  purpose : Option String
deriving DecidableEq, Repr

/-- A row of the `withdrawal_requests` table (challengesManager.js lines
526–538).  `created_at` is the insertion timestamp (milliseconds), the
value `new Date(existingRequest.created_at)` recovers. -/
structure WRequest where
  id : ℤ
  vault_id : String
  amount : ℚ
  reason : String
  status : String
  impact_message : String
  created_at : ℚ
deriving DecidableEq, Repr

/-- The two tables the soft-lock engine touches. -/
structure DBState where
  accounts : List Account
  requests : List WRequest
deriving DecidableEq, Repr

/-- `SELECT * FROM withdrawal_requests WHERE vault_id = ? AND status =
'pending' ORDER BY created_at DESC LIMIT 1` (savingsAgent.js lines
207–211): the pending request for the vault with the greatest
`created_at`. -/
def findLatestPending (reqs : List WRequest) (v : String) : Option WRequest :=
  (reqs.filter (fun r => r.vault_id == v && r.status == "pending")).foldl
    (fun acc r =>
      match acc with
      | none => some r
      | some b => if b.created_at < r.created_at then some r else some b)
    none

/-- Number of pending withdrawal-request rows for a vault. -/
def countPending (reqs : List WRequest) (v : String) : ℕ :=
  (reqs.filter (fun r => r.vault_id == v && r.status == "pending")).length

/-- The vault snapshot embedded in the `new_request` decision
(savingsAgent.js lines 242–247). -/
structure VaultSnapshot where
  name : Option String
  balance : ℚ
  goalAmount : Option ℚ
  purpose : Option String
deriving DecidableEq, Repr

/-- The objects `checkSoftLock` returns: `{allowed:false, error:'Vault not
found'}`, `{allowed:true, ..., withdrawalRequestId}`, or `{allowed:false,
reason, hoursRemaining?, vault?}`. -/
inductive LockDecision where
  | vaultNotFound : LockDecision
  | allowed (withdrawalRequestId : ℤ) : LockDecision
  | denied (reason : String) (hoursRemaining : Option ℤ)
      (vault : Option VaultSnapshot) : LockDecision
deriving DecidableEq, Repr

/-- `checkSoftLock(vaultId, requestedAmount)` (savingsAgent.js lines
191–256).  The function only issues `SELECT` queries; `requestedAmount` is
accepted but never read. -/
def checkSoftLock (accounts : List Account) (reqs : List WRequest)
    (now : ℚ) (vaultId : String) (requestedAmount : ℚ) : LockDecision :=
  match accounts.find? (fun a =>
      a.increase_account_id == vaultId && a.account_type == "vault") with
  | none => .vaultNotFound
  | some vault =>
    match findLatestPending reqs vaultId with
    | some existingRequest =>
        let hoursSinceRequest := (now - existingRequest.created_at) / 3600000
        if 24 ≤ hoursSinceRequest then .allowed existingRequest.id
        else .denied "cooling_period" (some (ratCeil (24 - hoursSinceRequest))) none
    | none =>
        .denied "new_request" none
          (some ⟨vault.name, vault.balance, vault.goal_amount, vault.purpose⟩)

/-- `checkSoftLock` as a state-passing operation: it performs only
`dbGet` (`SELECT`) calls, so the database state is returned unchanged. -/
def checkSoftLockOp (s : DBState) (now : ℚ) (vaultId : String)
    (requestedAmount : ℚ) : DBState × LockDecision :=
  (s, checkSoftLock s.accounts s.requests now vaultId requestedAmount)

/-- The goal-impact text of `createWithdrawalRequest` (savingsAgent.js
lines 275–290): empty unless the vault's `goal_amount` is truthy (present
and nonzero). -/
def impactMessage (vault : Account) (amount : ℚ) : String :=
  match vault.goal_amount with
  | none => ""
  | some goalAmount =>
    if goalAmount == 0 then ""
    else
      let currentProgress := vault.balance / goalAmount * 100
      let newProgress := (vault.balance - amount) / goalAmount * 100
      let progressLoss := currentProgress - newProgress
      let weeksDelay := ratCeil (progressLoss / 5)
      "Withdrawing now means:\n- Your progress drops from " ++
        ratToFixed currentProgress 1 ++ "% to " ++ ratToFixed newProgress 1 ++
        "%\n- You'll reach your goal approximately " ++ toString weeksDelay ++
        " weeks later"

/-- `INTEGER PRIMARY KEY AUTOINCREMENT` id allocation for an insert:
one more than the largest id in the table. -/
def nextRequestId (reqs : List WRequest) : ℤ :=
  1 + reqs.foldl (fun m r => max m r.id) 0

/-- The objects `createWithdrawalRequest` returns; `availableAt` is the
`now + 24h` timestamp (its ISO rendering is abstracted to the instant it
denotes). -/
inductive CreateResult where
  | failure (error : String) : CreateResult
  | success (impact : String) (availableAt : ℚ) : CreateResult
deriving DecidableEq, Repr

/-- The `success` field of the returned object. -/
def CreateResult.isSuccess : CreateResult → Bool
  | .failure _ => false
  | .success _ _ => true

/-- `createWithdrawalRequest(vaultId, amount, reason)` (savingsAgent.js
lines 261–312).  The vault lookup has no `account_type = 'vault'` filter,
and no check for an existing pending request is made before the
`INSERT`. -/
def createWithdrawalRequest (s : DBState) (now : ℚ) (vaultId : String)
    (amount : ℚ) (reason : String) : DBState × CreateResult :=
  match s.accounts.find? (fun a => a.increase_account_id == vaultId) with
  | none => (s, .failure "Vault not found")
  | some vault =>
    let impact := impactMessage vault amount
    ({ s with requests := s.requests ++
        [⟨nextRequestId s.requests, vaultId, amount, reason, "pending", impact, now⟩] },
     .success impact (now + 86400000))

/-- The responses of `POST /api/vault/withdraw/request` (server.js lines
784–818). -/
inductive RouteResponse where
  | badRequest : RouteResponse
  | lockResult (d : LockDecision) : RouteResponse
  | createResult (r : CreateResult) : RouteResponse
  | errorResult (d : LockDecision) : RouteResponse
deriving DecidableEq, Repr

/-- The `/api/vault/withdraw/request` handler (server.js lines 784–818):
reject a falsy vaultId or amount, run `checkSoftLock`, pass through an
`allowed` or `cooling_period` decision, call `createWithdrawalRequest`
only when the reason is `new_request`, and answer 400 otherwise. -/
def requestWithdrawalRoute (s : DBState) (now : ℚ) (vaultId : String)
    (amount : ℚ) (reason : String) : DBState × RouteResponse :=
  if vaultId == "" || amount == 0 then (s, .badRequest)
  else
    match checkSoftLock s.accounts s.requests now vaultId amount with
    | .allowed i => (s, .lockResult (.allowed i))
    | .denied r hr vs =>
        if r == "cooling_period" then (s, .lockResult (.denied r hr vs))
        else if r == "new_request" then
          match createWithdrawalRequest s now vaultId amount reason with
          | (s2, res) => (s2, .createResult res)
        else (s, .errorResult (.denied r hr vs))
    | .vaultNotFound => (s, .errorResult .vaultNotFound)

/-! ## Helper lemmas -/

/-- Filtering by `q` first does not change a filter by a stronger
predicate `p`. -/
theorem filter_absorb {α : Type} (p q : α → Bool) (l : List α)
    (h : ∀ a, p a = true → q a = true) :
    (l.filter q).filter p = l.filter p := by
  induction l with
  | nil => rfl
  | cons x t ih =>
      cases hp : p x with
      | true =>
          have hq := h x hp
          simp [List.filter_cons, hp, hq, ih]
      | false =>
          cases hq : q x with
          | true => simp [List.filter_cons, hp, hq, ih]
          | false => simp [List.filter_cons, hp, hq, ih]

/-- The latest-pending fold never forgets an already-found request. -/
theorem foldLatest_some (l : List WRequest) (b : WRequest) :
    (l.foldl
      (fun acc r =>
        match acc with
        | none => some r
        | some c => if c.created_at < r.created_at then some r else some c)
      (some b)).isSome = true := by
  induction l generalizing b with
  | nil => rfl
  | cons x t ih =>
      by_cases h : b.created_at < x.created_at
      · simpa [List.foldl_cons, h] using ih x
      · simpa [List.foldl_cons, h] using ih b

/-- If no latest pending request is found, the table holds no pending row
for the vault. -/
theorem findLatestPending_eq_none (reqs : List WRequest) (v : String)
    (h : findLatestPending reqs v = none) :
    reqs.filter (fun r => r.vault_id == v && r.status == "pending") = [] := by
  unfold findLatestPending at h
  cases hf : reqs.filter (fun r => r.vault_id == v && r.status == "pending") with
  | nil => rfl
  | cons x t =>
      rw [hf] at h
      have hs := foldLatest_some t x
      rw [List.foldl_cons] at h
      rw [h] at hs
      simp at hs

/-- A vault with no latest pending request has zero pending rows. -/
theorem countPending_eq_zero_of_none (reqs : List WRequest) (v : String)
    (h : findLatestPending reqs v = none) : countPending reqs v = 0 := by
  unfold countPending
  rw [findLatestPending_eq_none reqs v h]
  rfl

/-- A `new_request` decision can only arise when the vault has no pending
request. -/
theorem checkSoftLock_new_request_inversion (accounts : List Account)
    (reqs : List WRequest) (now : ℚ) (v : String) (amt : ℚ)
    (hr : Option ℤ) (vs : Option VaultSnapshot)
    (h : checkSoftLock accounts reqs now v amt = .denied "new_request" hr vs) :
    findLatestPending reqs v = none := by
  unfold checkSoftLock at h
  cases hf : accounts.find? (fun a =>
      a.increase_account_id == v && a.account_type == "vault") with
  | none => rw [hf] at h; exact absurd h (by simp)
  | some vault =>
      rw [hf] at h
      cases hp : findLatestPending reqs v with
      | none => rfl
      | some r =>
          rw [hp] at h
          simp only [] at h
          split at h <;> simp_all

/-- `ratFloor` agrees with the mathematical floor. -/
theorem ratFloor_eq_floor (q : ℚ) : ratFloor q = ⌊q⌋ := by
  rw [Rat.floor_def]; rfl

/-- `ratCeil` agrees with the mathematical ceiling. -/
theorem ratCeil_eq_ceil (q : ℚ) : ratCeil q = ⌈q⌉ := by
  unfold ratCeil
  rw [ratFloor_eq_floor, Int.floor_neg, neg_neg]

/-! ## Concrete fixtures -/

/-- A vault account: id `v1`, balance 50, goal 100. -/
def vaultV1 : Account := ⟨"v1", "vault", some "Trip", 50, some 100, some "travel"⟩

/-- A pending withdrawal request for `v1` created at time 0. -/
def pendingReqV1 : WRequest := ⟨1, "v1", 50, "need", "pending", "", 0⟩

/-- Ledger with the single vault `v1`. -/
def exAccounts : List Account := [vaultV1]

/-- Request store with the single pending request for `v1`. -/
def exReqs : List WRequest := [pendingReqV1]

/-- State: vault `v1` with one pending withdrawal request. -/
def exStateC1 : DBState := ⟨exAccounts, exReqs⟩

/-- A non-vault account (`account_type = "checking"`). -/
def checkingAcc : Account := ⟨"acc1", "checking", some "Main", 60, none, none⟩

/-! ## Claims about the soft-lock engine -/

/-- C1 (counterexample): `createWithdrawalRequest` is not rejected on a
vault that already has a pending request: invoked on the state with one
pending request for `v1`, it succeeds and the store ends up with two
pending rows for `v1`. -/
theorem createWithdrawalRequest_inserts_second_pending :
    countPending ((createWithdrawalRequest exStateC1 7 "v1" 20 "again").1.requests) "v1" = 2 ∧
    ((createWithdrawalRequest exStateC1 7 "v1" 20 "again").2).isSuccess = true := by
  constructor
  · with_unfolding_all decide
  · with_unfolding_all decide

/-- C1 (amended): `createWithdrawalRequest` itself never checks for an
existing pending request, but the `/api/vault/withdraw/request` route calls
it only when `checkSoftLock` reports `new_request` (no pending request), so
a sequential run of the route preserves at most one pending request per
vault. -/
theorem requestWithdrawalRoute_preserves_single_pending
    (s : DBState) (now : ℚ) (v : String) (amt : ℚ) (rsn : String)
    (h : countPending s.requests v ≤ 1) :
    countPending ((requestWithdrawalRoute s now v amt rsn).1.requests) v ≤ 1 := by
  unfold requestWithdrawalRoute
  split
  · exact h
  · cases hc : checkSoftLock s.accounts s.requests now v amt with
    | vaultNotFound => simpa using h
    | allowed i => simpa using h
    | denied r hr vs =>
        by_cases hr1 : (r == "cooling_period") = true
        · simpa [hr1] using h
        · by_cases hr2 : (r == "new_request") = true
          · have hreason : r = "new_request" := by simpa using hr2
            subst hreason
            have hnone := checkSoftLock_new_request_inversion
              s.accounts s.requests now v amt hr vs hc
            have h0 := countPending_eq_zero_of_none s.requests v hnone
            simp only [hr1, hr2, Bool.false_eq_true, if_false, if_true]
            unfold createWithdrawalRequest
            cases hfa : s.accounts.find? (fun a => a.increase_account_id == v) with
            | none => simpa using h
            | some vault =>
                simp only []
                unfold countPending at h0 ⊢
                rw [List.filter_append, List.length_append, h0]
                simp
          · simpa [hr1, hr2] using h

/-- C1 (amended, witness): on the state with one pending request for `v1`,
the route leaves the pending count at one. -/
theorem requestWithdrawalRoute_preserves_single_pending_witness :
    countPending ((requestWithdrawalRoute exStateC1 7 "v1" 20 "again").1.requests) "v1" ≤ 1 :=
  requestWithdrawalRoute_preserves_single_pending exStateC1 7 "v1" 20 "again"
    (by with_unfolding_all decide)

/-- C2: for an existing vault with a pending withdrawal request, if at
least 24 hours have elapsed since the request's creation `checkSoftLock`
allows the withdrawal tagged with that request's id, and if strictly less
than 24 hours have elapsed it denies with reason `cooling_period` and
`hoursRemaining = ⌈24 − hoursElapsed⌉`. -/
theorem checkSoftLock_pending_decision (accounts : List Account)
    (reqs : List WRequest) (now : ℚ) (v : String) (amt : ℚ) (r : WRequest)
    (hv : (accounts.find? (fun a => a.increase_account_id == v &&
        a.account_type == "vault")).isSome = true)
    (hr : findLatestPending reqs v = some r) :
    (24 ≤ (now - r.created_at) / 3600000 →
      checkSoftLock accounts reqs now v amt = .allowed r.id) ∧
    ((now - r.created_at) / 3600000 < 24 →
      checkSoftLock accounts reqs now v amt =
        .denied "cooling_period" (some ⌈24 - (now - r.created_at) / 3600000⌉) none) := by
  obtain ⟨vault, hfind⟩ := Option.isSome_iff_exists.mp hv
  constructor
  · intro h
    simp only [checkSoftLock, hfind, hr]
    rw [if_pos h]
  · intro h
    simp only [checkSoftLock, hfind, hr]
    rw [if_neg (not_le.mpr h), ratCeil_eq_ceil]

/-- C2 (witness): with the pending request created at time 0, checking 25
hours later is allowed with the request's id 1; checking 1 hour later is
denied with 23 hours remaining. -/
theorem checkSoftLock_pending_decision_witness :
    checkSoftLock exAccounts exReqs 90000000 "v1" 50 = .allowed 1 ∧
    checkSoftLock exAccounts exReqs 3600000 "v1" 50 =
      .denied "cooling_period" (some 23) none := by
  constructor
  · exact (checkSoftLock_pending_decision exAccounts exReqs 90000000 "v1" 50
      pendingReqV1 (by with_unfolding_all decide) (by with_unfolding_all decide)).1
      (by norm_num [pendingReqV1])
  · have h := (checkSoftLock_pending_decision exAccounts exReqs 3600000 "v1" 50
      pendingReqV1 (by with_unfolding_all decide) (by with_unfolding_all decide)).2
      (by norm_num [pendingReqV1])
    rw [h]
    norm_num [pendingReqV1]

/-- C3 (counterexample): with no pending request, the decision's reason is
the literal `new_request`, not `new_request_required` as the specification
states. -/
theorem checkSoftLock_new_request_reason_literal :
    checkSoftLock exAccounts [] 7 "v1" 20 =
      .denied "new_request" none (some ⟨some "Trip", 50, some 100, some "travel"⟩) ∧
    "new_request" ≠ "new_request_required" := by
  constructor
  · with_unfolding_all decide
  · decide

/-- C3 (amended): for an existing vault with no pending request,
`checkSoftLock` returns a denial with reason `new_request` carrying the
vault's name/balance/goal/purpose snapshot, and — performing only `SELECT`
queries — leaves the stored state unchanged; request creation happens only
in `createWithdrawalRequest`. -/
theorem checkSoftLockOp_no_pending_new_request (s : DBState) (now : ℚ)
    (v : String) (amt : ℚ) (vault : Account)
    (hv : s.accounts.find? (fun a => a.increase_account_id == v &&
        a.account_type == "vault") = some vault)
    (hp : findLatestPending s.requests v = none) :
    checkSoftLockOp s now v amt =
      (s, .denied "new_request" none
        (some ⟨vault.name, vault.balance, vault.goal_amount, vault.purpose⟩)) := by
  unfold checkSoftLockOp checkSoftLock
  rw [hv, hp]

/-- C3 (amended, witness): concrete instance on the vault `v1` with an
empty request store. -/
theorem checkSoftLockOp_no_pending_new_request_witness :
    checkSoftLockOp ⟨exAccounts, []⟩ 7 "v1" 20 =
      (⟨exAccounts, []⟩, .denied "new_request" none
        (some ⟨some "Trip", 50, some 100, some "travel"⟩)) := by
  have h := checkSoftLockOp_no_pending_new_request ⟨exAccounts, []⟩ 7 "v1" 20
    vaultV1 (by with_unfolding_all decide) rfl
  exact h

/-- C10: an account whose `account_type` is not `vault` is reported as
`Vault not found` by `checkSoftLock` (whose lookup filters on
`account_type = 'vault'`), yet `createWithdrawalRequest` for the same id
succeeds and appends a pending request (its lookup has no type filter). -/
theorem vault_type_filter_asymmetry (s : DBState) (now : ℚ) (v : String)
    (amt : ℚ) (rsn : String) (a : Account)
    (ha : s.accounts.find? (fun x => x.increase_account_id == v) = some a)
    (ht : ∀ x ∈ s.accounts, x.increase_account_id = v → x.account_type ≠ "vault") :
    checkSoftLock s.accounts s.requests now v amt = .vaultNotFound ∧
    createWithdrawalRequest s now v amt rsn =
      ({ s with requests := s.requests ++
          [⟨nextRequestId s.requests, v, amt, rsn, "pending", impactMessage a amt, now⟩] },
       .success (impactMessage a amt) (now + 86400000)) := by
  constructor
  · unfold checkSoftLock
    have hnone : s.accounts.find? (fun x => x.increase_account_id == v &&
        x.account_type == "vault") = none := by
      rw [List.find?_eq_none]
      intro x hx
      simp only [Bool.and_eq_true, beq_iff_eq, not_and]
      exact fun h1 h2 => ht x hx h1 h2
    rw [hnone]
  · unfold createWithdrawalRequest
    rw [ha]

/-- C10 (witness): concrete instance on a `checking` account. -/
theorem vault_type_filter_asymmetry_witness :
    checkSoftLock [checkingAcc] [] 7 "acc1" 20 = .vaultNotFound ∧
    createWithdrawalRequest ⟨[checkingAcc], []⟩ 7 "acc1" 20 "x" =
      (⟨[checkingAcc], [⟨nextRequestId [], "acc1", 20, "x", "pending",
          impactMessage checkingAcc 20, 7⟩]⟩,
       .success (impactMessage checkingAcc 20) (7 + 86400000)) :=
  vault_type_filter_asymmetry ⟨[checkingAcc], []⟩ 7 "acc1" 20 "x" checkingAcc
    (by with_unfolding_all decide) (by decide)

/-! ## Detector lemmas -/

/-- Each ascending insertion adds one element. -/
theorem insertAsc_length (x : ℚ) (l : List ℚ) :
    (insertAsc x l).length = l.length + 1 := by
  induction l with
  | nil => rfl
  | cons y ys ih =>
      by_cases h : x ≤ y
      · simp [insertAsc, h]
      · simp [insertAsc, h, ih]

/-- Sorting preserves length. -/
theorem sortAsc_length (l : List ℚ) : (sortAsc l).length = l.length := by
  induction l with
  | nil => rfl
  | cons x t ih =>
      show (insertAsc x (sortAsc t)).length = t.length + 1
      rw [insertAsc_length, ih]

/-- Unfolding of the windfall filter into its arithmetic content. -/
theorem windfallQualifies_iff (now median : ℚ) (t : Transaction) :
    windfallQualifies now median t = true ↔
      ∃ a d, t.amount = some a ∧ a < 0 ∧ t.date = some d ∧
        now - 2592000000 ≤ d ∧ median * 1.5 < |a| := by
  unfold windfallQualifies jsLtZero jsDateGe
  cases ha : t.amount with
  | none => simp
  | some a =>
      cases hd : t.date with
      | none => simp
      | some d =>
          simp only [Bool.and_eq_true, decide_eq_true_eq, Option.some.injEq]
          constructor
          · rintro ⟨⟨h1, h2⟩, h3⟩
            exact ⟨a, d, rfl, h1, rfl, h3, h2⟩
          · rintro ⟨a2, d2, h1, h2, h3, h4, h5⟩
            cases h1
            cases h3
            exact ⟨⟨h2, h5⟩, h4⟩

/-- A record passing the windfall filter has a numeric amount. -/
theorem windfallQualifies_amount_isSome (now median : ℚ) (t : Transaction)
    (h : windfallQualifies now median t = true) : t.amount.isSome = true := by
  cases ha : t.amount with
  | none => unfold windfallQualifies jsLtZero at h; rw [ha] at h; simp at h
  | some a => rfl

/-- A record passing the windfall filter has a parseable date. -/
theorem windfallQualifies_date_isSome (now median : ℚ) (t : Transaction)
    (h : windfallQualifies now median t = true) : t.date.isSome = true := by
  cases hd : t.date with
  | none =>
      unfold windfallQualifies jsDateGe at h
      rw [hd] at h
      simp at h
  | some d => rfl

/-- A record counted as income has a numeric amount. -/
theorem jsLtZero_isSome (o : Option ℚ) (h : jsLtZero o = true) :
    o.isSome = true := by
  cases o with
  | none => simp [jsLtZero] at h
  | some q => rfl

/-- Dropping records with non-numeric amounts does not change the income
list. -/
theorem incomes_filter_amount (txs : List Transaction) :
    incomes (txs.filter (fun t => t.amount.isSome)) = incomes txs := by
  unfold incomes
  rw [filter_absorb]
  intro t ht
  exact jsLtZero_isSome t.amount ht

/-- Dropping records with non-numeric amounts does not change the median. -/
theorem windfallMedian_filter_amount (txs : List Transaction) :
    windfallMedian (txs.filter (fun t => t.amount.isSome)) = windfallMedian txs := by
  unfold windfallMedian
  rw [incomes_filter_amount]

/-- Dropping records with non-numeric amounts does not change the recent
large deposits. -/
theorem recentLargeDeposits_filter_amount (now median : ℚ) (txs : List Transaction) :
    recentLargeDeposits now median (txs.filter (fun t => t.amount.isSome)) =
      recentLargeDeposits now median txs := by
  unfold recentLargeDeposits
  rw [filter_absorb]
  intro t ht
  exact windfallQualifies_amount_isSome now median t ht

/-- Dropping records with unparsable dates does not change the recent
large deposits. -/
theorem recentLargeDeposits_filter_date (now median : ℚ) (txs : List Transaction) :
    recentLargeDeposits now median (txs.filter (fun t => t.date.isSome)) =
      recentLargeDeposits now median txs := by
  unfold recentLargeDeposits
  rw [filter_absorb]
  intro t ht
  exact windfallQualifies_date_isSome now median t ht

/-- `detectWindfall` is unchanged by dropping records with non-numeric
amounts. -/
theorem detectWindfall_filter_amount (now : ℚ) (txs : List Transaction) :
    detectWindfall now (txs.filter (fun t => t.amount.isSome)) =
      detectWindfall now txs := by
  simp only [detectWindfall]
  rw [incomes_filter_amount, windfallMedian_filter_amount,
    recentLargeDeposits_filter_amount]

/-- The sweep's current-week filter only passes well-formed records. -/
theorem thisWeekTxs_filter_wf (now : ℚ) (txs : List Transaction) :
    thisWeekTxs now (txs.filter (fun t => t.amount.isSome && t.date.isSome)) =
      thisWeekTxs now txs := by
  unfold thisWeekTxs
  rw [filter_absorb]
  intro t ht
  simp only [Bool.and_eq_true] at ht ⊢
  obtain ⟨h1, h2⟩ := ht
  constructor
  · cases ha : t.amount with
    | none => rw [ha] at h1; simp [jsGtZero] at h1
    | some q => rfl
  · cases hd : t.date with
    | none => rw [hd] at h2; simp [jsDateGe] at h2
    | some d => rfl

/-- The sweep's baseline filter only passes well-formed records. -/
theorem last4WeeksTxs_filter_wf (now : ℚ) (txs : List Transaction) :
    last4WeeksTxs now (txs.filter (fun t => t.amount.isSome && t.date.isSome)) =
      last4WeeksTxs now txs := by
  unfold last4WeeksTxs
  rw [filter_absorb]
  intro t ht
  simp only [Bool.and_eq_true] at ht ⊢
  obtain ⟨⟨h1, h2⟩, h3⟩ := ht
  constructor
  · cases ha : t.amount with
    | none => rw [ha] at h1; simp [jsGtZero] at h1
    | some q => rfl
  · cases hd : t.date with
    | none => rw [hd] at h2; simp [jsDateGe] at h2
    | some d => rfl

/-- `analyzeWeeklySweep` is unchanged by dropping malformed records. -/
theorem analyzeWeeklySweep_filter_wf (now : ℚ) (txs : List Transaction) :
    analyzeWeeklySweep now (txs.filter (fun t => t.amount.isSome && t.date.isSome)) =
      analyzeWeeklySweep now txs := by
  simp only [analyzeWeeklySweep, unspentAmount, avgWeeklySpending, thisWeekSpending,
    thisWeekTxs_filter_wf, last4WeeksTxs_filter_wf]

/-! ## Detector fixtures (times in milliseconds; `now` is chosen so the
30-day window boundary sits at time 0) -/

/-- Two older credits (100, 200) plus a recent 400 credit named Bonus. -/
def exC4 : List Transaction :=
  [⟨some (-100), some (-10), none, none⟩,
   ⟨some (-200), some (-10), none, none⟩,
   ⟨some (-400), some 5, some "Bonus", none⟩]

/-- Four credits whose absolute amounts are 100, 300, 200, 400. -/
def exC5 : List Transaction :=
  [⟨some (-100), some 0, none, none⟩,
   ⟨some (-300), some 0, none, none⟩,
   ⟨some (-200), some 0, none, none⟩,
   ⟨some (-400), some 0, none, none⟩]

/-- Two older 100 credits plus a recent 300 credit named Bonus. -/
def exC6 : List Transaction :=
  [⟨some (-100), some (-10), none, none⟩,
   ⟨some (-100), some (-10), none, none⟩,
   ⟨some (-300), some 5, some "Bonus", none⟩]

/-- A 1 credit with an unparsable date, an older 100 credit, and a recent
250 credit. -/
def exC7 : List Transaction :=
  [⟨some (-1), none, none, none⟩,
   ⟨some (-100), some (-10), none, none⟩,
   ⟨some (-250), some 5, none, none⟩]

/-- Baseline debits of 20 and 4.04 (within days 8–35 before `now`
= 3024000000) and a current-week debit of 1. -/
def exC8 : List Transaction :=
  [⟨some 20, some 10, none, none⟩,
   ⟨some ((404 : ℚ)/100), some 20, none, none⟩,
   ⟨some 1, some 2419200005, none, none⟩]

/-- Baseline debits summing to 24 and a current-week debit of 1:
underspend exactly 5. -/
def exC8five : List Transaction :=
  [⟨some 20, some 10, none, none⟩,
   ⟨some 4, some 20, none, none⟩,
   ⟨some 1, some 2419200005, none, none⟩]

/-! ## Claims about the detectors -/

/-- C4: with at least two income observations, `detectWindfall` reports a
windfall exactly when some transaction is a credit dated within the most
recent 30 days whose absolute amount strictly exceeds 1.5 times the median
income. -/
theorem detectWindfall_iff_recent_large_credit (now : ℚ) (txs : List Transaction)
    (h : 2 ≤ (incomes txs).length) :
    (detectWindfall now txs).isWindfall = true ↔
      ∃ t ∈ txs, ∃ a d, t.amount = some a ∧ a < 0 ∧ t.date = some d ∧
        now - 30 * 86400000 ≤ d ∧ windfallMedian txs * 1.5 < |a| := by
  have h30 : now - 30 * 86400000 = now - 2592000000 := by norm_num
  simp only [detectWindfall]
  rw [if_neg (by omega)]
  cases hm : recentLargeDeposits now (windfallMedian txs) txs with
  | nil =>
      simp only [WindfallResult.isWindfall, Bool.false_eq_true, false_iff]
      unfold recentLargeDeposits at hm
      have hf := List.map_eq_nil_iff.mp hm
      rintro ⟨t, ht, a, d, h1, h2, h3, h4, h5⟩
      have hq : windfallQualifies now (windfallMedian txs) t = true := by
        rw [windfallQualifies_iff]
        exact ⟨a, d, h1, h2, h3, by rw [← h30]; exact h4, h5⟩
      have hcontra := List.filter_eq_nil_iff.mp hf t ht
      exact hcontra hq
  | cons w ws =>
      simp only [WindfallResult.isWindfall, true_iff]
      unfold recentLargeDeposits at hm
      obtain ⟨t, ht, hq⟩ :
          ∃ t ∈ txs, windfallQualifies now (windfallMedian txs) t = true := by
        cases hfil : txs.filter (windfallQualifies now (windfallMedian txs)) with
        | nil => rw [hfil] at hm; simp at hm
        | cons t0 ts =>
            refine ⟨t0, ?_, ?_⟩
            · exact List.mem_of_mem_filter (hfil ▸ List.mem_cons_self t0 ts)
            · exact List.of_mem_filter (hfil ▸ List.mem_cons_self t0 ts)
      obtain ⟨a, d, h1, h2, h3, h4, h5⟩ := (windfallQualifies_iff _ _ _).mp hq
      exact ⟨t, ht, a, d, h1, h2, h3, by rw [h30]; exact h4, h5⟩

/-- C4 (witness): the fixture has median 200; the recent 400 credit
exceeds 300 = 1.5 × 200, so a windfall is reported. -/
theorem detectWindfall_iff_recent_large_credit_witness :
    (detectWindfall 2592000000 exC4).isWindfall = true :=
  (detectWindfall_iff_recent_large_credit 2592000000 exC4
      (by with_unfolding_all decide)).mpr
    ⟨⟨some (-400), some 5, some "Bonus", none⟩, by with_unfolding_all decide,
      -400, 5, rfl, by norm_num, rfl, by norm_num,
      by with_unfolding_all decide⟩

/-- C5: the baseline median is the element at index `⌊n/2⌋` of the
ascending-sorted income list — for even-length lists the upper of the two
middle candidates, not their average. -/
theorem windfallMedian_even_length_index (txs : List Transaction)
    (h : (incomes txs).length % 2 = 0) :
    windfallMedian txs = (sortAsc (incomes txs)).getD ((incomes txs).length / 2) 0 := by
  simp only [windfallMedian]
  rw [sortAsc_length]

/-- C5 (witness): incomes 100, 300, 200, 400 sort to
[100, 200, 300, 400]; the median is element 2, i.e. 300 (not 250). -/
theorem windfallMedian_even_length_index_witness :
    windfallMedian exC5 = 300 := by
  have h := windfallMedian_even_length_index exC5 (by with_unfolding_all decide)
  rw [h]
  with_unfolding_all decide

/-- C6 (code bug): the returned `source` field is the fallback chain
`name || merchant || "Unknown"` (here `"Bonus"`), but the explanation
string interpolates `windfall.source` — a property absent from the mapped
deposit object — so it reads `Detected undefined: ...` instead of citing
the source label. -/
theorem detectWindfall_reason_cites_undefined :
    detectWindfall 2592000000 exC6 =
      .windfall 300 100 "3.0" "Bonus" (some 5) 60
        "Detected undefined: $300.00 (3.0x your typical income)" := by
  with_unfolding_all decide

/-- C7 (counterexample): a credit with an unparsable date is *not*
excluded from the median baseline: removing the malformed record changes
the detection outcome (windfall reported on the raw list, none on the
cleaned list). -/
theorem detectWindfall_counts_invalid_date_credit_in_median :
    detectWindfall 2592000000 exC7 ≠
      detectWindfall 2592000000
        (exC7.filter (fun t => t.amount.isSome && t.date.isSome)) := by
  with_unfolding_all decide

/-- C7 (amended): records with non-numeric amounts are excluded from all
computations of both detectors; records with unparsable dates are excluded
from the sweep entirely and from the windfall 30-day deposit selection —
but credits with unparsable dates still enter the windfall median
baseline.  No malformed record makes either detector fail. -/
theorem detectors_skip_malformed_records (now : ℚ) (txs : List Transaction) :
    detectWindfall now (txs.filter (fun t => t.amount.isSome)) =
      detectWindfall now txs ∧
    analyzeWeeklySweep now (txs.filter (fun t => t.amount.isSome && t.date.isSome)) =
      analyzeWeeklySweep now txs ∧
    ∀ median, recentLargeDeposits now median (txs.filter (fun t => t.date.isSome)) =
      recentLargeDeposits now median txs :=
  ⟨detectWindfall_filter_amount now txs, analyzeWeeklySweep_filter_wf now txs,
    fun median => recentLargeDeposits_filter_date now median txs⟩

/-- C8: with a non-empty baseline window, the sweep flags an opportunity
exactly when the underspend strictly exceeds 5 dollars, and the suggested
savings is half the underspend. -/
theorem analyzeWeeklySweep_threshold_strict (now : ℚ) (txs : List Transaction)
    (h : last4WeeksTxs now txs ≠ []) :
    ((analyzeWeeklySweep now txs).hasOpportunity = true ↔
      5 < unspentAmount now txs) ∧
    (∀ tw avg un sg r, analyzeWeeklySweep now txs = .opportunity tw avg un sg r →
      un = unspentAmount now txs ∧ sg = unspentAmount now txs * 0.5) := by
  unfold analyzeWeeklySweep
  rw [if_neg h]
  by_cases h5 : 5 < unspentAmount now txs
  · rw [if_pos h5]
    refine ⟨by simp [SweepResult.hasOpportunity, h5], ?_⟩
    intro tw avg un sg r heq
    cases heq
    exact ⟨rfl, rfl⟩
  · rw [if_neg h5]
    refine ⟨by simp [SweepResult.hasOpportunity, h5], ?_⟩
    intro tw avg un sg r heq
    cases heq

/-- C8 (witness): underspend 5.01 (average 6.01, current week 1) triggers;
underspend exactly 5 (average 6, current week 1) does not. -/
theorem analyzeWeeklySweep_threshold_strict_witness :
    (analyzeWeeklySweep 3024000000 exC8).hasOpportunity = true ∧
    (analyzeWeeklySweep 3024000000 exC8five).hasOpportunity = false := by
  constructor
  · exact ((analyzeWeeklySweep_threshold_strict 3024000000 exC8
      (by with_unfolding_all decide)).1).mpr (by with_unfolding_all decide)
  · have h := (analyzeWeeklySweep_threshold_strict 3024000000 exC8five
      (by with_unfolding_all decide)).1
    have h5 : ¬ (5 : ℚ) < unspentAmount 3024000000 exC8five := by
      with_unfolding_all decide
    exact Bool.eq_false_iff.mpr (fun hb => h5 (h.mp hb))

/-- C9: an empty baseline window yields the insufficient-data result (and
hence no division is attempted on an empty history); whenever an
opportunity is returned, its trailing average equals the baseline debit
sum divided by exactly 4. -/
theorem analyzeWeeklySweep_zero_baseline_guard (now : ℚ) (txs : List Transaction) :
    (last4WeeksTxs now txs = [] →
      analyzeWeeklySweep now txs = .noOpportunity "Not enough historical data") ∧
    (∀ tw avg un sg r, analyzeWeeklySweep now txs = .opportunity tw avg un sg r →
      avg = sumAmounts (last4WeeksTxs now txs) / 4) := by
  constructor
  · intro h
    unfold analyzeWeeklySweep
    rw [if_pos h]
  · intro tw avg un sg r heq
    unfold analyzeWeeklySweep at heq
    split at heq
    · cases heq
    · split at heq
      · cases heq
        rfl
      · cases heq

/-- C9 (witness): a history with a single credit has an empty baseline
window, and the guard fires. -/
theorem analyzeWeeklySweep_zero_baseline_guard_witness :
    analyzeWeeklySweep 3024000000 [⟨some (-100), some 5, none, none⟩] =
      .noOpportunity "Not enough historical data" :=
  (analyzeWeeklySweep_zero_baseline_guard 3024000000
      [⟨some (-100), some 5, none, none⟩]).1 (by with_unfolding_all decide)
